import Mathlib

/-!
Shallow embedding of the tomodex margin-lending pipeline:
the lending order service (dispatcher, change-stream mapping, bulk
aggregator, broker glue) from the services source file, and the
websocket subscription registry from src/ws/lending_markets.go.

Machine maps are embedded as association lists (the outbound order-book
buffer) or as Boolean/​list-valued functions (the registry indices);
external collaborators (daos, broker, json decoding) are environment
parameters; I/O is reified as an explicit effect list; nil-pointer
dereferences surface as an `Except Panic` error.
-/

set_option maxHeartbeats 1000000

namespace TomoDex

/-! ### Basic data model -/

abbrev Address := Nat

abbrev Hash := Nat

abbrev LendingTrade := Nat

abbrev GoError := String

/-- Modelled from the spec: the `SubscriptionEvent` status constants of the
sdk `types` package (the package itself is not under src); one constructor
per distinct constant, plus `other` for every unmapped status string. -/
inductive SubscriptionEvent where
  | LENDING_ORDER_ADDED
  | LENDING_ORDER_CANCELLED
  | LENDING_ORDER_REJECTED
  | LENDING_ORDER_PARTIALLY_FILLED
  | LENDING_ORDER_FILLED
  | LENDING_ORDER_REPAYED
  | LENDING_ORDER_TOPUPED
  | LENDING_ORDER_RECALLED
  | LENDING_ORDER_TOPUP_REJECTED
  | LENDING_ORDER_REPAY_REJECTED
  | LENDING_ORDER_RECALL_REJECTED
  | ERROR_STATUS
  | other (s : String)
deriving DecidableEq, Repr

/-- Modelled from the spec: the storage status constants
(`types.LendingStatusOpen` etc., fixed table of 4.2), plus `other` for
any other stored status string. -/
inductive LendingStatus where
  | OPEN
  | CANCELLED
  | FILLED
  | PARTIAL_FILLED
  | REPAY
  | TOPUP
  | RECALL
  | REJECTED
  | other (s : String)
deriving DecidableEq, Repr

/-- Modelled from the spec: the side constant `types.BORROW`; the flush
compares `o.Side == types.BORROW` and treats everything else as lend. -/
def BORROW : String := "BORROW"

/-- The fields of `types.LendingOrder` read by the embedded code. -/
structure LendingOrder where
  userAddress : Address
  hash : Hash
  term : Nat
  lendingToken : Address
  interest : Nat
  side : String
  status : LendingStatus
deriving DecidableEq, Repr

/-- `types.EngineResponse`: a status tag plus the embedded (possibly nil)
lending order. -/
structure EngineResponse where
  status : SubscriptionEvent
  lendingOrder : Option LendingOrder
deriving DecidableEq, Repr

structure NotificationMessage where
  messageType : SubscriptionEvent
  description : String
deriving DecidableEq, Repr

inductive NotificationKind where
  | TypeLog
deriving DecidableEq, Repr

inductive NotificationReadState where
  | StatusUnread
deriving DecidableEq, Repr

/-- `types.Notification` as constructed by the dispatcher handlers. -/
structure Notification where
  recipient : Address
  message : NotificationMessage
  kind : NotificationKind
  readState : NotificationReadState
deriving DecidableEq, Repr

/-- Modelled from the spec: hex rendering of the order hash
(`common.Hash.Hex`, external library); any injective rendering serves the
embedding. -/
def HashHex (h : Hash) : String := toString h

/-- Modelled from the spec: `utils.GetLendingOrderBookChannelID` (not under
src); wire format 6 gives the snapshot name as `<term>::<token>`. -/
def GetLendingOrderBookChannelID (term : Nat) (lendingToken : Address) : String :=
  toString term ++ "::" ++ toString lendingToken

/-- One entry of the borrow/lend lists of an order-book snapshot
(`map[string]string{"interest": ..., "amount": ...}` in the source). -/
structure BookEntry where
  interest : String
  amount : String
deriving DecidableEq, Repr

/-- `types.LendingOrderBook` snapshot payload. -/
structure LendingOrderBook where
  name : String
  borrow : List BookEntry
  lend : List BookEntry
deriving DecidableEq, Repr

/-- Payload of an outgoing websocket message. -/
inductive Payload where
  | order (o : LendingOrder)
  | trade (t : Option LendingTrade)
  | notifs (n : Option Notification)
deriving DecidableEq, Repr

/-- Reified I/O actions of the service, in program order. -/
inductive Effect where
  | persistNotification (n : Notification)
  | sendLendingOrderMessage (ev : SubscriptionEvent) (addr : Address) (p : Payload)
  | sendNotificationMessage (ev : SubscriptionEvent) (addr : Address) (p : Payload)
  | broadcastMessage (channelID : String) (book : LendingOrderBook)
  | storeNewLendingOrder (o : LendingOrder)
  | storeCancelLendingOrder (o : LendingOrder)
  | logError (msg : String)
  | logInfo (msg : String)
deriving DecidableEq, Repr

/-- A nil-pointer dereference of the embedded Go code. -/
inductive Panic where
  | nilPointer
deriving DecidableEq, Repr

/-- External collaborators of the lending order service (daos), purely
functional: `notificationDao.Create` returns the stored notification and a
possible error, `lendingTradeDao.GetByHash` a possible trade, and
`lendingDao.GetLendingOrderBookInterest` the aggregate volume (nil is
`none`) and a possible error. -/
structure Env where
  createNotification : Notification → Option Notification × Option GoError
  getTradeByHash : Hash → Option LendingTrade
  getLendingOrderBookInterest : Nat → Address → Nat → String → Option Int × Option GoError

/-! ### Bulk aggregator buffer

`s.bulkLendingOrders : map[string]map[common.Hash]*types.LendingOrder`,
embedded as a nested association list; Go map assignment is upsert. -/

abbrev Buffer := List (String × List (Hash × LendingOrder))

/-- Inner map assignment `m[hash] = order`. -/
def assocUpsert (k : Hash) (v : LendingOrder) : List (Hash × LendingOrder) → List (Hash × LendingOrder)
  | [] => [(k, v)]
  | (k', v') :: rest => if k' = k then (k, v) :: rest else (k', v') :: assocUpsert k v rest

/-- Outer assignment: `bulkLendingOrders[id][hash] = order`, creating the
inner map when the channel key is absent (the if/else of the source). -/
def bufUpsert (id : String) (k : Hash) (v : LendingOrder) : Buffer → Buffer
  | [] => [(id, [(k, v)])]
  | (id', m) :: rest =>
      if id' = id then (id, assocUpsert k v m) :: rest
      else (id', m) :: bufUpsert id k v rest

/-- `saveBulkLendingOrders`: reads `res.LendingOrder.Term`, `.LendingToken`
and `.Hash` unconditionally (nil order panics), then upserts the order
under its channel id; always returns nil error otherwise. -/
def saveBulkLendingOrders (res : EngineResponse) (buf : Buffer) : Except Panic Buffer :=
  match res.lendingOrder with
  | none => .error .nilPointer
  | some o =>
      .ok (bufUpsert (GetLendingOrderBookChannelID o.term o.lendingToken) o.hash o buf)

/-- Iterated `saveBulkLendingOrders` over the responses of one flush window. -/
def runSaves (rs : List EngineResponse) (buf : Buffer) : Except Panic Buffer :=
  rs.foldlM (fun b r => saveBulkLendingOrders r b) buf

/-- Per-channel body of the flush loop: for each pending order look the
aggregate volume up (logging a lookup error), treat a nil amount as zero,
and append the update to the borrow or lend list by side. -/
def flushChannelLists (env : Env) : List (Hash × LendingOrder) → List Effect × List BookEntry × List BookEntry
  | [] => ([], [], [])
  | (_, o) :: rest =>
      let looked := env.getLendingOrderBookInterest o.term o.lendingToken o.interest o.side
      let logs := match looked.2 with
        | some e => [Effect.logError e]
        | none => []
      let amt : Int := looked.1.getD 0
      let update : BookEntry := { interest := toString o.interest, amount := toString amt }
      let tail := flushChannelLists env rest
      if o.side = BORROW then (logs ++ tail.1, update :: tail.2.1, tail.2.2)
      else (logs ++ tail.1, tail.2.1, update :: tail.2.2)

/-- The I/O of `processBulkLendingOrders`: channels with no pending orders
are skipped; every other channel key emits one composed snapshot broadcast. -/
def flushEffects (env : Env) : Buffer → List Effect
  | [] => []
  | (p, orders) :: rest =>
      if orders.length ≤ 0 then flushEffects env rest
      else
        let lists := flushChannelLists env orders
        lists.1 ++ [Effect.broadcastMessage p { name := p, borrow := lists.2.1, lend := lists.2.2 }]
          ++ flushEffects env rest

/-- `processBulkLendingOrders`: emit the flush I/O, then reset the whole
buffer to a fresh empty map. -/
def processBulkLendingOrders (env : Env) (buf : Buffer) : List Effect × Buffer :=
  (flushEffects env buf, [])

/-! ### Lock trace of the flush

`processBulkLendingOrders` re-traced at the level of lock events: the
source takes `s.mutext.Lock()` on entry with a deferred `Unlock()`, so the
release happens after the loop and after the buffer reset. -/

inductive FlushTraceStep where
  | lockAcquire
  | lockRelease
  | storageLookup
  | registryBroadcast
  | bufferReset
deriving DecidableEq, Repr

/-- Lock-level events of the flush loop body: one storage lookup per
pending order, one registry broadcast per non-empty channel. -/
def flushBodyTrace : Buffer → List FlushTraceStep
  | [] => []
  | (_, orders) :: rest =>
      (if orders.length ≤ 0 then []
       else orders.map (fun _ => FlushTraceStep.storageLookup) ++ [FlushTraceStep.registryBroadcast])
        ++ flushBodyTrace rest

/-- The full lock trace of one `processBulkLendingOrders` call. -/
def processBulkLendingOrdersTrace (buf : Buffer) : List FlushTraceStep :=
  [FlushTraceStep.lockAcquire] ++ flushBodyTrace buf
    ++ [FlushTraceStep.bufferReset, FlushTraceStep.lockRelease]

/-! ### Event dispatcher handlers -/

/-- `handleLendingOrderAdded`: addressed order message, notification
persist, error log on a failed persist, addressed notification message,
info log. -/
def handleLendingOrderAdded (env : Env) (res : EngineResponse) : Except Panic (List Effect) :=
  match res.lendingOrder with
  | none => .error .nilPointer
  | some o =>
      let n : Notification :=
        { recipient := o.userAddress
          message := { messageType := res.status, description := HashHex o.hash }
          kind := .TypeLog
          readState := .StatusUnread }
      match env.createNotification n with
      | (notifications, err) =>
          .ok ([.sendLendingOrderMessage .LENDING_ORDER_ADDED o.userAddress (.order o),
                .persistNotification n]
               ++ (match err with | some e => [Effect.logError e] | none => [])
               ++ [.sendNotificationMessage res.status o.userAddress (.notifs notifications),
                   .logInfo "BroadcastOrderBookUpdate Lending Added"])

/-- `handleLendingOrderPartialFilled`: empty placeholder. -/
def handleLendingOrderPartialFilled (_ : Env) (_ : EngineResponse) : Except Panic (List Effect) :=
  .ok []

/-- `handleLendingOrderFilled`: empty placeholder. -/
def handleLendingOrderFilled (_ : Env) (_ : EngineResponse) : Except Panic (List Effect) :=
  .ok []

/-- `handleLendingTopup`: persist, error log on failure, addressed
notification message, trade fetch, addressed trade message. -/
def handleLendingTopup (env : Env) (res : EngineResponse) : Except Panic (List Effect) :=
  match res.lendingOrder with
  | none => .error .nilPointer
  | some o =>
      let n : Notification :=
        { recipient := o.userAddress
          message := { messageType := res.status, description := HashHex o.hash }
          kind := .TypeLog
          readState := .StatusUnread }
      match env.createNotification n with
      | (notifications, err) =>
          .ok ([.persistNotification n]
               ++ (match err with | some e => [Effect.logError e] | none => [])
               ++ [.sendNotificationMessage .LENDING_ORDER_TOPUPED o.userAddress (.notifs notifications),
                   .sendLendingOrderMessage .LENDING_ORDER_TOPUPED o.userAddress
                     (.trade (env.getTradeByHash o.hash))])

/-- `handleLendingRepay`: persist, error log on failure, addressed
notification message, trade fetch, addressed trade message. -/
def handleLendingRepay (env : Env) (res : EngineResponse) : Except Panic (List Effect) :=
  match res.lendingOrder with
  | none => .error .nilPointer
  | some o =>
      let n : Notification :=
        { recipient := o.userAddress
          message := { messageType := res.status, description := HashHex o.hash }
          kind := .TypeLog
          readState := .StatusUnread }
      match env.createNotification n with
      | (notifications, err) =>
          .ok ([.persistNotification n]
               ++ (match err with | some e => [Effect.logError e] | none => [])
               ++ [.sendNotificationMessage .LENDING_ORDER_REPAYED o.userAddress (.notifs notifications),
                   .sendLendingOrderMessage .LENDING_ORDER_REPAYED o.userAddress
                     (.trade (env.getTradeByHash o.hash))])

/-- `handleLendingRecall`: addressed order message, persist, error log on
failure, addressed notification message, trade fetch, addressed trade
message. -/
def handleLendingRecall (env : Env) (res : EngineResponse) : Except Panic (List Effect) :=
  match res.lendingOrder with
  | none => .error .nilPointer
  | some o =>
      let n : Notification :=
        { recipient := o.userAddress
          message := { messageType := res.status, description := HashHex o.hash }
          kind := .TypeLog
          readState := .StatusUnread }
      match env.createNotification n with
      | (notifications, err) =>
          .ok ([.sendLendingOrderMessage .LENDING_ORDER_RECALLED o.userAddress (.order o),
                .persistNotification n]
               ++ (match err with | some e => [Effect.logError e] | none => [])
               ++ [.sendNotificationMessage .LENDING_ORDER_RECALLED o.userAddress (.notifs notifications),
                   .sendLendingOrderMessage .LENDING_ORDER_RECALLED o.userAddress
                     (.trade (env.getTradeByHash o.hash))])

/-- `handleLendingReject` (shared by the three topup/repay/recall reject
statuses): addressed order message, persist tagged with `res.Status`,
error log on failure, addressed notification message. -/
def handleLendingReject (env : Env) (res : EngineResponse) (lendingType : SubscriptionEvent) :
    Except Panic (List Effect) :=
  match res.lendingOrder with
  | none => .error .nilPointer
  | some o =>
      let n : Notification :=
        { recipient := o.userAddress
          message := { messageType := res.status, description := HashHex o.hash }
          kind := .TypeLog
          readState := .StatusUnread }
      match env.createNotification n with
      | (notifications, err) =>
          .ok ([.sendLendingOrderMessage lendingType o.userAddress (.order o),
                .persistNotification n]
               ++ (match err with | some e => [Effect.logError e] | none => [])
               ++ [.sendNotificationMessage lendingType o.userAddress (.notifs notifications)])

/-- `handleLendingOrderCancelled`: persist tagged with the literal
cancelled status, error log on failure, addressed order message, addressed
notification message, info log. -/
def handleLendingOrderCancelled (env : Env) (res : EngineResponse) : Except Panic (List Effect) :=
  match res.lendingOrder with
  | none => .error .nilPointer
  | some o =>
      let n : Notification :=
        { recipient := o.userAddress
          message := { messageType := .LENDING_ORDER_CANCELLED, description := HashHex o.hash }
          kind := .TypeLog
          readState := .StatusUnread }
      match env.createNotification n with
      | (notifications, err) =>
          .ok ([.persistNotification n]
               ++ (match err with | some e => [Effect.logError e] | none => [])
               ++ [.sendLendingOrderMessage .LENDING_ORDER_CANCELLED o.userAddress (.order o),
                   .sendNotificationMessage .LENDING_ORDER_CANCELLED o.userAddress (.notifs notifications),
                   .logInfo "BroadcastOrderBookUpdate Lending Cancelled"])

/-- `handleLendingOrderRejected`: empty body in the source. -/
def handleLendingOrderRejected (_ : Env) (_ : EngineResponse) : Except Panic (List Effect) :=
  .ok []

/-- `handleEngineError`: persist tagged with the rejected status, error log
on failure, addressed order message, addressed notification message, info
log. -/
def handleEngineError (env : Env) (res : EngineResponse) : Except Panic (List Effect) :=
  match res.lendingOrder with
  | none => .error .nilPointer
  | some o =>
      let n : Notification :=
        { recipient := o.userAddress
          message := { messageType := .LENDING_ORDER_REJECTED, description := HashHex o.hash }
          kind := .TypeLog
          readState := .StatusUnread }
      match env.createNotification n with
      | (notifications, err) =>
          .ok ([.persistNotification n]
               ++ (match err with | some e => [Effect.logError e] | none => [])
               ++ [.sendLendingOrderMessage .LENDING_ORDER_REJECTED o.userAddress (.order o),
                   .sendNotificationMessage .LENDING_ORDER_REJECTED o.userAddress (.notifs notifications),
                   .logInfo "BroadcastOrderBookUpdate lending rejected"])

/-- `handleEngineUnknownMessage`: empty body in the source. -/
def handleEngineUnknownMessage (_ : Env) (_ : EngineResponse) : Except Panic (List Effect) :=
  .ok []

/-- The status-keyed dispatch switch of `HandleLendingOrderResponse`. -/
def dispatchEngineResponse (env : Env) (res : EngineResponse) : Except Panic (List Effect) :=
  match res.status with
  | .LENDING_ORDER_ADDED => handleLendingOrderAdded env res
  | .LENDING_ORDER_CANCELLED => handleLendingOrderCancelled env res
  | .LENDING_ORDER_REJECTED => handleLendingOrderRejected env res
  | .LENDING_ORDER_PARTIALLY_FILLED => handleLendingOrderPartialFilled env res
  | .LENDING_ORDER_FILLED => handleLendingOrderFilled env res
  | .LENDING_ORDER_REPAYED => handleLendingRepay env res
  | .LENDING_ORDER_TOPUPED => handleLendingTopup env res
  | .LENDING_ORDER_RECALLED => handleLendingRecall env res
  | .LENDING_ORDER_TOPUP_REJECTED => handleLendingReject env res .LENDING_ORDER_TOPUP_REJECTED
  | .LENDING_ORDER_REPAY_REJECTED => handleLendingReject env res .LENDING_ORDER_REPAY_REJECTED
  | .LENDING_ORDER_RECALL_REJECTED => handleLendingReject env res .LENDING_ORDER_RECALL_REJECTED
  | .ERROR_STATUS => handleEngineError env res
  | .other _ => handleEngineUnknownMessage env res

/-- `HandleLendingOrderResponse`: the status-keyed dispatch switch, then —
for every non-ERROR status, the unknown default included — the forwarding
into `saveBulkLendingOrders` (whose error would only be logged; it never
returns one short of panicking); the function itself always returns nil
error. -/
def HandleLendingOrderResponse (env : Env) (res : EngineResponse) (buf : Buffer) :
    Except Panic (List Effect × Buffer × Option GoError) :=
  match dispatchEngineResponse env res with
  | .error p => .error p
  | .ok effs =>
      if res.status ≠ .ERROR_STATUS then
        match saveBulkLendingOrders res buf with
        | .error p => .error p
        | .ok buf' => .ok (effs, buf', none)
      else .ok (effs, buf, none)

/-- The effect list of one dispatched response (empty on a panic). -/
def handleEffects (env : Env) (res : EngineResponse) (buf : Buffer) : List Effect :=
  match HandleLendingOrderResponse env res buf with
  | .ok r => r.1
  | .error _ => []

/-- Whether an effect persists a notification tagged with the given order's
hash and the given status. -/
def isPersistTagged (o : LendingOrder) (st : SubscriptionEvent) (e : Effect) : Bool :=
  match e with
  | .persistNotification n =>
      decide (n.recipient = o.userAddress) && decide (n.message.messageType = st)
        && decide (n.message.description = HashHex o.hash)
  | _ => false

/-- Whether an effect is a websocket message addressed to the given user
address. -/
def isAddressedTo (a : Address) (e : Effect) : Bool :=
  match e with
  | .sendLendingOrderMessage _ addr _ => decide (addr = a)
  | .sendNotificationMessage _ addr _ => decide (addr = a)
  | _ => false

/-- The dispatched response for status `st` and order `o` persists a
notification tagged with the order's hash and `st`, and sends a message
addressed to the order's user address. -/
def notifiedAndMessaged (env : Env) (o : LendingOrder) (st : SubscriptionEvent) : Prop :=
  (handleEffects env { status := st, lendingOrder := some o } []).any (isPersistTagged o st) = true ∧
  (handleEffects env { status := st, lendingOrder := some o } []).any (isAddressedTo o.userAddress) = true

/-! ### Change stream watcher -/

/-- Document type tags of the four watcher instances (source constants). -/
def LENDING_EVENT : String := "ORDER"

def REPAY_EVENT : String := "REPAY"

def TOPUP_EVENT : String := "TOPUP"

def RECALL_EVENT : String := "RECALL"

/-- `types.LendingOrderChangeEvent` as consumed by `HandleDocumentType`. -/
structure LendingOrderChangeEvent where
  operationType : String
  fullDocument : Option LendingOrder
deriving DecidableEq, Repr

/-- `HandleDocumentType`: maps the stored status of the full document to an
`EngineResponse`; the result is the response handed to
`broker.PublishLendingOrderResponse`, `none` when nothing is published
(nil document, unmapped status, or a rejected status under an unmatched
document type, where `res.Status` stays empty). The REJECTED branch is the
source's sequence of four independent `if`s on the document type. -/
def HandleDocumentType (ev : LendingOrderChangeEvent) (docType : String) : Option EngineResponse :=
  match ev.fullDocument with
  | none => none
  | some doc =>
      match doc.status with
      | .OPEN => some { status := .LENDING_ORDER_ADDED, lendingOrder := some doc }
      | .CANCELLED => some { status := .LENDING_ORDER_CANCELLED, lendingOrder := some doc }
      | .FILLED => some { status := .LENDING_ORDER_FILLED, lendingOrder := some doc }
      | .PARTIAL_FILLED => some { status := .LENDING_ORDER_PARTIALLY_FILLED, lendingOrder := some doc }
      | .REPAY => some { status := .LENDING_ORDER_REPAYED, lendingOrder := some doc }
      | .TOPUP => some { status := .LENDING_ORDER_TOPUPED, lendingOrder := some doc }
      | .RECALL => some { status := .LENDING_ORDER_RECALLED, lendingOrder := some doc }
      | .REJECTED =>
          let r1 : Option EngineResponse := none
          let r2 := if docType = REPAY_EVENT then
              some ({ status := .LENDING_ORDER_REPAY_REJECTED, lendingOrder := some doc } : EngineResponse)
            else r1
          let r3 := if docType = TOPUP_EVENT then
              some ({ status := .LENDING_ORDER_TOPUP_REJECTED, lendingOrder := some doc } : EngineResponse)
            else r2
          let r4 := if docType = RECALL_EVENT then
              some ({ status := .LENDING_ORDER_RECALL_REJECTED, lendingOrder := some doc } : EngineResponse)
            else r3
          if docType = LENDING_EVENT then
            some { status := .LENDING_ORDER_REJECTED, lendingOrder := some doc }
          else r4
      | .other _ => none

/-- The given order with its stored status replaced. -/
def withStatus (o : LendingOrder) (st : LendingStatus) : LendingOrder :=
  { o with status := st }

/-! ### Broker glue -/

abbrev Bytes := List Nat

/-- `rabbitmq.Message` envelope. -/
structure RMessage where
  mtype : String
  data : Bytes
deriving DecidableEq, Repr

/-- External collaborators of the inbound broker consumer:
`json.Unmarshal` into a lending order, and the two storage writes. -/
structure BrokerEnv where
  unmarshalLendingOrder : Bytes → Except GoError LendingOrder
  addNewLendingOrder : LendingOrder → Option GoError
  cancelLendingOrder : LendingOrder → Option GoError

/-- `handleNewLendingOrder`: decode, log-and-return the decode error, else
apply the create storage write. -/
def handleNewLendingOrder (env : BrokerEnv) (bytes : Bytes) : List Effect × Option GoError :=
  match env.unmarshalLendingOrder bytes with
  | .error e => ([.logError e], some e)
  | .ok o => ([.storeNewLendingOrder o], env.addNewLendingOrder o)

/-- `handleCancelLendingOrder`: decode, log-and-return the decode error,
else apply the cancel storage write. -/
def handleCancelLendingOrder (env : BrokerEnv) (bytes : Bytes) : List Effect × Option GoError :=
  match env.unmarshalLendingOrder bytes with
  | .error e => ([.logError e], some e)
  | .ok o => ([.storeCancelLendingOrder o], env.cancelLendingOrder o)

/-- `HandleLendingOrdersCreateCancel`: switch on the envelope type; a
failing sub-handler is logged again and its error returned; an unknown
type is logged and dropped with nil error. -/
def HandleLendingOrdersCreateCancel (env : BrokerEnv) (msg : RMessage) : List Effect × Option GoError :=
  if msg.mtype = "NEW_LENDING_ORDER" then
    match handleNewLendingOrder env msg.data with
    | (effs, some e) => (effs ++ [.logError e], some e)
    | (effs, none) => (effs, none)
  else if msg.mtype = "CANCEL_LENDING_ORDER" then
    match handleCancelLendingOrder env msg.data with
    | (effs, some e) => (effs ++ [.logError e], some e)
    | (effs, none) => (effs, none)
  else ([.logError "Unknown message"], none)

/-! ### Subscription registry (src/ws/lending_markets.go)

The forward index `subscriptions : map[string]map[*Client]bool` is a
Boolean-valued function (an entry counts iff present with value true: the
only place that stores `false` deletes the entry in the same guarded
block), the inverse index `subscriptionsList : map[*Client][]string` a
list-valued function with `[]` for a missing key. -/

abbrev Client := Nat

structure LendingMarketsSocket where
  subscriptions : String → Client → Bool
  subscriptionsList : Client → List String

/-- `NewLendingMarketsSocket`: both indices empty. -/
def NewLendingMarketsSocket : LendingMarketsSocket :=
  { subscriptions := fun _ _ => false
    subscriptionsList := fun _ => [] }

/-- `Subscribe`: nil connection is refused; otherwise the pair is set in
the forward index and the channel id appended to the connection's inverse
list. -/
def Subscribe (channelID : String) (c : Option Client) (s : LendingMarketsSocket) :
    Except GoError LendingMarketsSocket :=
  match c with
  | none => .error "No connection found"
  | some c =>
      .ok { subscriptions := fun ch cl =>
              if ch = channelID ∧ cl = c then true else s.subscriptions ch cl
            subscriptionsList := fun cl =>
              if cl = c then s.subscriptionsList c ++ [channelID] else s.subscriptionsList cl }

/-- `UnsubscribeChannel`: when the pair is active, mark it false and delete
it (net effect: no active entry); the inverse list is untouched. -/
def UnsubscribeChannel (channelID : String) (c : Client) (s : LendingMarketsSocket) :
    LendingMarketsSocket :=
  if s.subscriptions channelID c then
    { s with subscriptions := fun ch cl =>
        if ch = channelID ∧ cl = c then false else s.subscriptions ch cl }
  else s

/-- `Unsubscribe`: return on a nil inverse list, else unsubscribe the
connection from every channel of its inverse list; the list itself is
never removed. -/
def Unsubscribe (c : Client) (s : LendingMarketsSocket) : LendingMarketsSocket :=
  match s.subscriptionsList c with
  | [] => s
  | _ => (s.subscriptionsList c).foldl (fun st id => UnsubscribeChannel id c st) s

/-- `BroadcastMessage` delivers to a connection iff its forward entry on
the channel is active (the snapshot loop sends to every `true` entry). -/
def broadcastReaches (s : LendingMarketsSocket) (channelID : String) (c : Client) : Bool :=
  s.subscriptions channelID c

/-- A registry mutation, for quantifying over operation sequences. -/
inductive RegOp where
  | sub (channelID : String) (c : Client)
  | unsubCh (channelID : String) (c : Client)
  | unsub (c : Client)
deriving DecidableEq, Repr

def applyRegOp (s : LendingMarketsSocket) : RegOp → LendingMarketsSocket
  | .sub ch c =>
      match Subscribe ch (some c) s with
      | .ok s' => s'
      | .error _ => s
  | .unsubCh ch c => UnsubscribeChannel ch c s
  | .unsub c => Unsubscribe c s

/-- Run a sequence of registry operations from the fresh registry. -/
def runRegOps (ops : List RegOp) : LendingMarketsSocket :=
  ops.foldl applyRegOp NewLendingMarketsSocket

/-- The channels a connection subscribed to somewhere in the sequence. -/
def joinedChannels (ops : List RegOp) (c : Client) : List String :=
  ops.filterMap fun op =>
    match op with
    | .sub ch c' => if c' = c then some ch else none
    | _ => none

/-- Forward-to-inverse consistency: an active forward entry is recorded in
the connection's inverse list. -/
def regConsistent (s : LendingMarketsSocket) : Prop :=
  ∀ ch c, s.subscriptions ch c = true → ch ∈ s.subscriptionsList c

/-! ### Concrete inputs for witnesses and counterexamples -/

/-- A concrete borrow order. -/
def o0 : LendingOrder :=
  { userAddress := 1, hash := 7, term := 60, lendingToken := 5, interest := 9,
    side := BORROW, status := .OPEN }

/-- A second concrete order with the same hash, term and token. -/
def o1 : LendingOrder :=
  { userAddress := 1, hash := 7, term := 60, lendingToken := 5, interest := 12,
    side := BORROW, status := .OPEN }

/-- A concrete environment whose dao calls all succeed. -/
def env0 : Env :=
  { createNotification := fun n => (some n, none)
    getTradeByHash := fun _ => none
    getLendingOrderBookInterest := fun _ _ _ _ => (some 42, none) }

/-- A concrete broker environment whose decoder always fails. -/
def brokerEnvBad : BrokerEnv :=
  { unmarshalLendingOrder := fun _ => .error "invalid character"
    addNewLendingOrder := fun _ => none
    cancelLendingOrder := fun _ => none }

/-! ## Theorems -/

/-! ### Registry lemmas -/

theorem UnsubscribeChannel_subscriptions (channelID : String) (c : Client)
    (s : LendingMarketsSocket) (ch : String) (cl : Client) :
    (UnsubscribeChannel channelID c s).subscriptions ch cl =
      if ch = channelID ∧ cl = c then false else s.subscriptions ch cl := by
  unfold UnsubscribeChannel
  by_cases hb : s.subscriptions channelID c = true
  · simp [hb]
  · have hb' : s.subscriptions channelID c = false := by simpa using hb
    simp only [hb', Bool.false_eq_true, if_false]
    split
    · next hcond =>
        obtain ⟨h1, h2⟩ := hcond
        subst h1; subst h2
        exact hb'
    · rfl

theorem UnsubscribeChannel_subscriptionsList (channelID : String) (c : Client)
    (s : LendingMarketsSocket) :
    (UnsubscribeChannel channelID c s).subscriptionsList = s.subscriptionsList := by
  unfold UnsubscribeChannel
  split <;> rfl

theorem unsubLoop_subscriptions (c : Client) (ids : List String) :
    ∀ (s : LendingMarketsSocket) (ch : String) (cl : Client),
      ((ids.foldl (fun st id => UnsubscribeChannel id c st) s).subscriptions ch cl) =
        if cl = c ∧ ch ∈ ids then false else s.subscriptions ch cl := by
  induction ids with
  | nil => intro s ch cl; simp
  | cons i ids ih =>
      intro s ch cl
      rw [List.foldl_cons, ih, UnsubscribeChannel_subscriptions]
      by_cases hcl : cl = c
      · subst hcl
        by_cases hchi : ch = i
        · subst hchi; simp [List.mem_cons]
        · by_cases hmem : ch ∈ ids <;> simp [hchi, hmem, List.mem_cons]
      · simp [hcl]

theorem unsubLoop_subscriptionsList (c : Client) (ids : List String) :
    ∀ (s : LendingMarketsSocket),
      ((ids.foldl (fun st id => UnsubscribeChannel id c st) s).subscriptionsList) =
        s.subscriptionsList := by
  induction ids with
  | nil => intro s; rfl
  | cons i ids ih =>
      intro s
      rw [List.foldl_cons, ih, UnsubscribeChannel_subscriptionsList]

theorem Unsubscribe_subscriptions (c : Client) (s : LendingMarketsSocket)
    (ch : String) (cl : Client) :
    (Unsubscribe c s).subscriptions ch cl =
      if cl = c ∧ ch ∈ s.subscriptionsList c then false else s.subscriptions ch cl := by
  unfold Unsubscribe
  cases h : s.subscriptionsList c with
  | nil => simp [h]
  | cons i ids => simp only [h, unsubLoop_subscriptions]

theorem Unsubscribe_subscriptionsList (c : Client) (s : LendingMarketsSocket) :
    (Unsubscribe c s).subscriptionsList = s.subscriptionsList := by
  unfold Unsubscribe
  cases h : s.subscriptionsList c with
  | nil => rfl
  | cons i ids => simp only [h, unsubLoop_subscriptionsList]

theorem regConsistent_applyRegOp (s : LendingMarketsSocket) (hs : regConsistent s)
    (op : RegOp) : regConsistent (applyRegOp s op) := by
  cases op with
  | sub chID c0 =>
      intro ch c h
      simp only [applyRegOp, Subscribe] at h ⊢
      by_cases hc : c = c0
      · subst hc
        simp only [if_pos rfl]
        by_cases hch : ch = chID
        · subst hch; simp
        · rw [if_neg (by simp [hch])] at h
          exact List.mem_append_left _ (hs _ _ h)
      · rw [if_neg (by simp [hc])] at h
        rw [if_neg hc]
        exact hs _ _ h
  | unsubCh chID c0 =>
      intro ch c h
      simp only [applyRegOp] at h ⊢
      rw [UnsubscribeChannel_subscriptions] at h
      rw [UnsubscribeChannel_subscriptionsList]
      by_cases hcond : ch = chID ∧ c = c0
      · rw [if_pos hcond] at h; exact absurd h (by simp)
      · rw [if_neg hcond] at h; exact hs _ _ h
  | unsub c0 =>
      intro ch c h
      simp only [applyRegOp] at h ⊢
      rw [Unsubscribe_subscriptions] at h
      rw [Unsubscribe_subscriptionsList]
      by_cases hcond : c = c0 ∧ ch ∈ s.subscriptionsList c0
      · rw [if_pos hcond] at h; exact absurd h (by simp)
      · rw [if_neg hcond] at h; exact hs _ _ h

theorem runRegOps_consistent (ops : List RegOp) : regConsistent (runRegOps ops) := by
  have main : ∀ (l : List RegOp) (s : LendingMarketsSocket), regConsistent s →
      regConsistent (l.foldl applyRegOp s) := by
    intro l
    induction l with
    | nil => intro s hs; exact hs
    | cons op l ih =>
        intro s hs
        exact ih _ (regConsistent_applyRegOp s hs op)
  refine main ops NewLendingMarketsSocket ?_
  intro ch c hc
  simp [NewLendingMarketsSocket] at hc

/-! ### Claim C3 -/

/-- C3 (amended): for every sequence of Subscribe, UnsubscribeChannel and
Unsubscribe operations, a connection holding an active forward-index entry
for a channel has that channel recorded in its inverse-index list (the
converse direction of the claimed iff fails, see the counterexample). -/
theorem c3_forward_implies_inverse (ops : List RegOp) (ch : String) (c : Client)
    (h : (runRegOps ops).subscriptions ch c = true) :
    ch ∈ (runRegOps ops).subscriptionsList c :=
  runRegOps_consistent ops ch c h

/-- Witness for C3's amended theorem at a concrete operation sequence. -/
theorem c3_forward_implies_inverse_witness :
    (runRegOps [RegOp.sub "a" 0]).subscriptions "a" 0 = true ∧
      "a" ∈ (runRegOps [RegOp.sub "a" 0]).subscriptionsList 0 :=
  ⟨by decide, c3_forward_implies_inverse [RegOp.sub "a" 0] "a" 0 (by decide)⟩

/-- C3 counterexample: after Subscribe("a", c) then UnsubscribeChannel("a",
c), the connection is still present in the inverse index while it holds no
active forward-index entry on any channel, so the claimed iff is false. -/
theorem c3_counterexample :
    (runRegOps [RegOp.sub "a" 0, RegOp.unsubCh "a" 0]).subscriptionsList 0 = ["a"] ∧
      ∀ ch, (runRegOps [RegOp.sub "a" 0, RegOp.unsubCh "a" 0]).subscriptions ch 0 = false := by
  constructor
  · decide
  · intro ch
    have hrun : runRegOps [RegOp.sub "a" 0, RegOp.unsubCh "a" 0] =
        UnsubscribeChannel "a" 0 (applyRegOp NewLendingMarketsSocket (RegOp.sub "a" 0)) := rfl
    rw [hrun, UnsubscribeChannel_subscriptions]
    by_cases h : ch = "a"
    · simp [h]
    · simp [h, applyRegOp, Subscribe, NewLendingMarketsSocket]

/-! ### Claim C6 -/

/-- C6 (amended): subscribing the same (channelID, connection) pair twice
leaves exactly one active entry for the pair in the forward index but
appends the channel twice to the connection's inverse-index list; a single
UnsubscribeChannel afterwards removes the forward entry — the pair is no
longer active — but both inverse-index records remain. -/
theorem c6_double_subscribe_unsubscribe (ch : String) (c : Client) (s : LendingMarketsSocket) :
    ∃ s1 s2, Subscribe ch (some c) s = .ok s1 ∧ Subscribe ch (some c) s1 = .ok s2 ∧
      s2.subscriptions ch c = true ∧
      s2.subscriptionsList c = s.subscriptionsList c ++ [ch, ch] ∧
      (UnsubscribeChannel ch c s2).subscriptions ch c = false ∧
      (UnsubscribeChannel ch c s2).subscriptionsList c = s.subscriptionsList c ++ [ch, ch] := by
  refine ⟨_, _, rfl, rfl, ?_, ?_, ?_, ?_⟩
  · simp [Subscribe]
  · simp [Subscribe]
  · rw [UnsubscribeChannel_subscriptions]; simp
  · rw [UnsubscribeChannel_subscriptionsList]; simp [Subscribe]

/-- C6 counterexample: after subscribing ("a", 0) twice the inverse index
records the channel twice, and a single UnsubscribeChannel leaves both
records in the registry's state, so the pair is not fully removed. -/
theorem c6_counterexample :
    (runRegOps [RegOp.sub "a" 0, RegOp.sub "a" 0]).subscriptionsList 0 = ["a", "a"] ∧
      (runRegOps [RegOp.sub "a" 0, RegOp.sub "a" 0, RegOp.unsubCh "a" 0]).subscriptions "a" 0
        = false ∧
      (runRegOps [RegOp.sub "a" 0, RegOp.sub "a" 0, RegOp.unsubCh "a" 0]).subscriptionsList 0
        = ["a", "a"] := by
  decide

/-! ### Claim C8 -/

theorem inactive_preserved (c : Client) :
    ∀ (ops' : List RegOp), (∀ ch', RegOp.sub ch' c ∉ ops') →
      ∀ (s : LendingMarketsSocket), (∀ ch, s.subscriptions ch c = false) →
      ∀ ch, (ops'.foldl applyRegOp s).subscriptions ch c = false := by
  intro ops'
  induction ops' with
  | nil => intro _ s hs ch; exact hs ch
  | cons op rest ih =>
      intro hno s hs ch
      rw [List.foldl_cons]
      refine ih (fun ch' hmem => hno ch' (List.mem_cons_of_mem op hmem)) _ ?_ ch
      intro ch0
      cases op with
      | sub chID c0 =>
          have hc0 : c0 ≠ c := by
            intro hc
            subst hc
            exact hno chID (by simp)
          simp only [applyRegOp, Subscribe]
          rw [if_neg (fun hcond => hc0 hcond.2.symm)]
          exact hs ch0
      | unsubCh chID c0 =>
          simp only [applyRegOp]
          rw [UnsubscribeChannel_subscriptions]
          by_cases hcond : ch0 = chID ∧ c = c0
          · rw [if_pos hcond]
          · rw [if_neg hcond]
            exact hs ch0
      | unsub c0 =>
          simp only [applyRegOp]
          rw [Unsubscribe_subscriptions]
          by_cases hcond : c = c0 ∧ ch0 ∈ s.subscriptionsList c0
          · rw [if_pos hcond]
          · rw [if_neg hcond]
            exact hs ch0

/-- C8: for any history of registry operations, once Unsubscribe(conn)
completes, a BroadcastMessage issued after any further interleaved
Subscribe/UnsubscribeChannel/Unsubscribe activity in which that connection
does not subscribe again reaches the connection on no channel it had
previously joined. -/
theorem c8_no_broadcast_after_unsubscribe (ops : List RegOp) (c : Client) (ops' : List RegOp)
    (ch : String) (hjoined : ch ∈ joinedChannels ops c)
    (hnoresub : ∀ ch', RegOp.sub ch' c ∉ ops') :
    broadcastReaches (ops'.foldl applyRegOp (Unsubscribe c (runRegOps ops))) ch c = false := by
  have hdead : ∀ ch0, (Unsubscribe c (runRegOps ops)).subscriptions ch0 c = false := by
    intro ch0
    rw [Unsubscribe_subscriptions]
    by_cases hm : c = c ∧ ch0 ∈ (runRegOps ops).subscriptionsList c
    · rw [if_pos hm]
    · rw [if_neg hm]
      by_cases hb : (runRegOps ops).subscriptions ch0 c = true
      · exact absurd ⟨rfl, runRegOps_consistent ops ch0 c hb⟩ hm
      · simpa using hb
  exact inactive_preserved c ops' hnoresub _ hdead ch

/-- Witness for C8: a concrete history, then other connections subscribing
and unsubscribing between the unsubscribe and the broadcast. -/
theorem c8_no_broadcast_after_unsubscribe_witness :
    "a" ∈ joinedChannels [RegOp.sub "a" 1] 1 ∧
      (∀ ch', RegOp.sub ch' 1 ∉ [RegOp.sub "b" 2, RegOp.sub "a" 2, RegOp.unsubCh "a" 2]) ∧
      broadcastReaches
        ([RegOp.sub "b" 2, RegOp.sub "a" 2, RegOp.unsubCh "a" 2].foldl applyRegOp
          (Unsubscribe 1 (runRegOps [RegOp.sub "a" 1]))) "a" 1 = false := by
  refine ⟨by decide, ?_, ?_⟩
  · intro ch' hmem
    simp at hmem
  · exact c8_no_broadcast_after_unsubscribe [RegOp.sub "a" 1] 1
      [RegOp.sub "b" 2, RegOp.sub "a" 2, RegOp.unsubCh "a" 2] "a" (by decide)
      (by intro ch' hmem; simp at hmem)

/-! ### Dispatcher lemmas -/

theorem handleLendingOrderAdded_effects (env : Env) (res : EngineResponse) (o : LendingOrder)
    (ho : res.lendingOrder = some o) :
    ∃ effs, handleLendingOrderAdded env res = .ok effs ∧
      effs.any (isPersistTagged o res.status) = true ∧
      effs.any (isAddressedTo o.userAddress) = true := by
  unfold handleLendingOrderAdded
  simp only [ho]
  split <;>
    (refine ⟨_, rfl, ?_, ?_⟩ <;> simp [isPersistTagged, isAddressedTo, List.any_append])

theorem handleLendingOrderCancelled_effects (env : Env) (res : EngineResponse) (o : LendingOrder)
    (ho : res.lendingOrder = some o) :
    ∃ effs, handleLendingOrderCancelled env res = .ok effs ∧
      effs.any (isPersistTagged o .LENDING_ORDER_CANCELLED) = true ∧
      effs.any (isAddressedTo o.userAddress) = true := by
  unfold handleLendingOrderCancelled
  simp only [ho]
  split <;>
    (refine ⟨_, rfl, ?_, ?_⟩ <;> simp [isPersistTagged, isAddressedTo, List.any_append])

theorem handleLendingTopup_effects (env : Env) (res : EngineResponse) (o : LendingOrder)
    (ho : res.lendingOrder = some o) :
    ∃ effs, handleLendingTopup env res = .ok effs ∧
      effs.any (isPersistTagged o res.status) = true ∧
      effs.any (isAddressedTo o.userAddress) = true := by
  unfold handleLendingTopup
  simp only [ho]
  split <;>
    (refine ⟨_, rfl, ?_, ?_⟩ <;> simp [isPersistTagged, isAddressedTo, List.any_append])

theorem handleLendingRepay_effects (env : Env) (res : EngineResponse) (o : LendingOrder)
    (ho : res.lendingOrder = some o) :
    ∃ effs, handleLendingRepay env res = .ok effs ∧
      effs.any (isPersistTagged o res.status) = true ∧
      effs.any (isAddressedTo o.userAddress) = true := by
  unfold handleLendingRepay
  simp only [ho]
  split <;>
    (refine ⟨_, rfl, ?_, ?_⟩ <;> simp [isPersistTagged, isAddressedTo, List.any_append])

theorem handleLendingRecall_effects (env : Env) (res : EngineResponse) (o : LendingOrder)
    (ho : res.lendingOrder = some o) :
    ∃ effs, handleLendingRecall env res = .ok effs ∧
      effs.any (isPersistTagged o res.status) = true ∧
      effs.any (isAddressedTo o.userAddress) = true := by
  unfold handleLendingRecall
  simp only [ho]
  split <;>
    (refine ⟨_, rfl, ?_, ?_⟩ <;> simp [isPersistTagged, isAddressedTo, List.any_append])

theorem handleLendingReject_effects (env : Env) (res : EngineResponse)
    (lendingType : SubscriptionEvent) (o : LendingOrder)
    (ho : res.lendingOrder = some o) :
    ∃ effs, handleLendingReject env res lendingType = .ok effs ∧
      effs.any (isPersistTagged o res.status) = true ∧
      effs.any (isAddressedTo o.userAddress) = true := by
  unfold handleLendingReject
  simp only [ho]
  split <;>
    (refine ⟨_, rfl, ?_, ?_⟩ <;> simp [isPersistTagged, isAddressedTo, List.any_append])

theorem handleEffects_of_dispatch_ok (env : Env) (res : EngineResponse) (buf : Buffer)
    (o : LendingOrder) (effs : List Effect)
    (hd : dispatchEngineResponse env res = .ok effs) (ho : res.lendingOrder = some o) :
    handleEffects env res buf = effs := by
  unfold handleEffects HandleLendingOrderResponse
  rw [hd]
  by_cases hst : res.status = .ERROR_STATUS
  · simp [hst]
  · simp [hst, saveBulkLendingOrders, ho]

/-! ### Claim C1 -/

/-- C1 (amended): for the statuses ADDED, CANCELLED, REPAYED, TOPUPED,
RECALLED, TOPUP_REJECTED, REPAY_REJECTED and RECALL_REJECTED, the handler
invoked by HandleLendingOrderResponse persists a Notification tagged with
the order's hash and the triggering status, and sends a message addressed
to the order's user address (REJECTED — excluded here, unlike in the
original claim — is an empty no-op like PARTIALLY_FILLED and FILLED). -/
theorem c1_handlers_notify_and_message (env : Env) (o : LendingOrder) :
    notifiedAndMessaged env o .LENDING_ORDER_ADDED ∧
    notifiedAndMessaged env o .LENDING_ORDER_CANCELLED ∧
    notifiedAndMessaged env o .LENDING_ORDER_REPAYED ∧
    notifiedAndMessaged env o .LENDING_ORDER_TOPUPED ∧
    notifiedAndMessaged env o .LENDING_ORDER_RECALLED ∧
    notifiedAndMessaged env o .LENDING_ORDER_TOPUP_REJECTED ∧
    notifiedAndMessaged env o .LENDING_ORDER_REPAY_REJECTED ∧
    notifiedAndMessaged env o .LENDING_ORDER_RECALL_REJECTED := by
  refine ⟨?_, ?_, ?_, ?_, ?_, ?_, ?_, ?_⟩
  · obtain ⟨effs, heq, h1, h2⟩ :=
      handleLendingOrderAdded_effects env
        { status := .LENDING_ORDER_ADDED, lendingOrder := some o } o rfl
    have hd : dispatchEngineResponse env
        { status := .LENDING_ORDER_ADDED, lendingOrder := some o } = .ok effs := heq
    have he := handleEffects_of_dispatch_ok env _ [] o effs hd rfl
    exact ⟨by rw [he]; exact h1, by rw [he]; exact h2⟩
  · obtain ⟨effs, heq, h1, h2⟩ :=
      handleLendingOrderCancelled_effects env
        { status := .LENDING_ORDER_CANCELLED, lendingOrder := some o } o rfl
    have hd : dispatchEngineResponse env
        { status := .LENDING_ORDER_CANCELLED, lendingOrder := some o } = .ok effs := heq
    have he := handleEffects_of_dispatch_ok env _ [] o effs hd rfl
    exact ⟨by rw [he]; exact h1, by rw [he]; exact h2⟩
  · obtain ⟨effs, heq, h1, h2⟩ :=
      handleLendingRepay_effects env
        { status := .LENDING_ORDER_REPAYED, lendingOrder := some o } o rfl
    have hd : dispatchEngineResponse env
        { status := .LENDING_ORDER_REPAYED, lendingOrder := some o } = .ok effs := heq
    have he := handleEffects_of_dispatch_ok env _ [] o effs hd rfl
    exact ⟨by rw [he]; exact h1, by rw [he]; exact h2⟩
  · obtain ⟨effs, heq, h1, h2⟩ :=
      handleLendingTopup_effects env
        { status := .LENDING_ORDER_TOPUPED, lendingOrder := some o } o rfl
    have hd : dispatchEngineResponse env
        { status := .LENDING_ORDER_TOPUPED, lendingOrder := some o } = .ok effs := heq
    have he := handleEffects_of_dispatch_ok env _ [] o effs hd rfl
    exact ⟨by rw [he]; exact h1, by rw [he]; exact h2⟩
  · obtain ⟨effs, heq, h1, h2⟩ :=
      handleLendingRecall_effects env
        { status := .LENDING_ORDER_RECALLED, lendingOrder := some o } o rfl
    have hd : dispatchEngineResponse env
        { status := .LENDING_ORDER_RECALLED, lendingOrder := some o } = .ok effs := heq
    have he := handleEffects_of_dispatch_ok env _ [] o effs hd rfl
    exact ⟨by rw [he]; exact h1, by rw [he]; exact h2⟩
  · obtain ⟨effs, heq, h1, h2⟩ :=
      handleLendingReject_effects env
        { status := .LENDING_ORDER_TOPUP_REJECTED, lendingOrder := some o }
        .LENDING_ORDER_TOPUP_REJECTED o rfl
    have hd : dispatchEngineResponse env
        { status := .LENDING_ORDER_TOPUP_REJECTED, lendingOrder := some o } = .ok effs := heq
    have he := handleEffects_of_dispatch_ok env _ [] o effs hd rfl
    exact ⟨by rw [he]; exact h1, by rw [he]; exact h2⟩
  · obtain ⟨effs, heq, h1, h2⟩ :=
      handleLendingReject_effects env
        { status := .LENDING_ORDER_REPAY_REJECTED, lendingOrder := some o }
        .LENDING_ORDER_REPAY_REJECTED o rfl
    have hd : dispatchEngineResponse env
        { status := .LENDING_ORDER_REPAY_REJECTED, lendingOrder := some o } = .ok effs := heq
    have he := handleEffects_of_dispatch_ok env _ [] o effs hd rfl
    exact ⟨by rw [he]; exact h1, by rw [he]; exact h2⟩
  · obtain ⟨effs, heq, h1, h2⟩ :=
      handleLendingReject_effects env
        { status := .LENDING_ORDER_RECALL_REJECTED, lendingOrder := some o }
        .LENDING_ORDER_RECALL_REJECTED o rfl
    have hd : dispatchEngineResponse env
        { status := .LENDING_ORDER_RECALL_REJECTED, lendingOrder := some o } = .ok effs := heq
    have he := handleEffects_of_dispatch_ok env _ [] o effs hd rfl
    exact ⟨by rw [he]; exact h1, by rw [he]; exact h2⟩

/-- C1 counterexample: for status REJECTED the invoked handler
(`handleLendingOrderRejected`) has an empty body, so no notification is
persisted and no message is sent, contradicting the claim's inclusion of
REJECTED among the notifying statuses. -/
theorem c1_counterexample :
    handleEffects env0 { status := .LENDING_ORDER_REJECTED, lendingOrder := some o0 } [] = [] ∧
    (handleEffects env0 { status := .LENDING_ORDER_REJECTED, lendingOrder := some o0 } []).any
        (isPersistTagged o0 .LENDING_ORDER_REJECTED) = false ∧
    (handleEffects env0 { status := .LENDING_ORDER_REJECTED, lendingOrder := some o0 } []).any
        (isAddressedTo o0.userAddress) = false := by
  decide

/-! ### Claim C4 -/

/-- C4 (amended): an EngineResponse whose status matches no dispatch-table
entry produces no notification, no message and no log entry, and no error
is returned to the caller; however — contrary to the original claim — the
response IS forwarded into the bulk aggregator, whose buffer gains the
order under its channel id. -/
theorem c4_unknown_status_buffered (env : Env) (o : LendingOrder) (buf : Buffer) (s : String) :
    HandleLendingOrderResponse env { status := .other s, lendingOrder := some o } buf =
      .ok ([], bufUpsert (GetLendingOrderBookChannelID o.term o.lendingToken) o.hash o buf,
        none) := rfl

/-- C4 counterexample: a concrete unknown-status response is buffered into
the bulk aggregator (so the next flush broadcasts a snapshot for its
channel), refuting the claim that it is never buffered; the empty effect
list also shows that no log entry is produced. -/
theorem c4_counterexample :
    HandleLendingOrderResponse env0 { status := .other "UNRECOGNIZED", lendingOrder := some o0 } []
        = .ok ([], [(GetLendingOrderBookChannelID 60 5, [(7, o0)])], none) ∧
    flushEffects env0 [(GetLendingOrderBookChannelID 60 5, [(7, o0)])] ≠ [] := by
  constructor
  · rfl
  · decide

/-! ### Claim C10 -/

/-- C10: with a non-nil embedded LendingOrder, HandleLendingOrderResponse
never panics (for any status, ERROR included); with a nil order and a
non-ERROR status — the unknown status here — the unconditional forwarding
into saveBulkLendingOrders dereferences the nil order and panics. -/
theorem c10_nil_order_panic_boundary :
    (∀ (env : Env) (st : SubscriptionEvent) (o : LendingOrder) (buf : Buffer),
      ∃ v, HandleLendingOrderResponse env { status := st, lendingOrder := some o } buf = .ok v) ∧
    (∀ (env : Env) (buf : Buffer),
      HandleLendingOrderResponse env { status := .other "UNRECOGNIZED", lendingOrder := none } buf
        = .error .nilPointer) := by
  constructor
  · intro env st o buf
    cases st <;> exact ⟨_, rfl⟩
  · intro env buf
    rfl

/-! ### Claim C2 -/

/-- C2: HandleDocumentType maps each stored status per the fixed table
OPEN→ADDED, CANCELLED→CANCELLED, FILLED→FILLED,
PARTIAL_FILLED→PARTIALLY_FILLED, REPAY→REPAYED, TOPUP→TOPUPED,
RECALL→RECALLED independently of the document type, and maps REJECTED by
document type alone (order→REJECTED, topup→TOPUP_REJECTED,
repay→REPAY_REJECTED, recall→RECALL_REJECTED); each mapped response is the
one published to the outbound broker. -/
theorem c2_document_type_table (o : LendingOrder) (opTy dt : String) :
    HandleDocumentType ⟨opTy, some (withStatus o .OPEN)⟩ dt =
      some { status := .LENDING_ORDER_ADDED, lendingOrder := some (withStatus o .OPEN) } ∧
    HandleDocumentType ⟨opTy, some (withStatus o .CANCELLED)⟩ dt =
      some { status := .LENDING_ORDER_CANCELLED, lendingOrder := some (withStatus o .CANCELLED) } ∧
    HandleDocumentType ⟨opTy, some (withStatus o .FILLED)⟩ dt =
      some { status := .LENDING_ORDER_FILLED, lendingOrder := some (withStatus o .FILLED) } ∧
    HandleDocumentType ⟨opTy, some (withStatus o .PARTIAL_FILLED)⟩ dt =
      some { status := .LENDING_ORDER_PARTIALLY_FILLED,
             lendingOrder := some (withStatus o .PARTIAL_FILLED) } ∧
    HandleDocumentType ⟨opTy, some (withStatus o .REPAY)⟩ dt =
      some { status := .LENDING_ORDER_REPAYED, lendingOrder := some (withStatus o .REPAY) } ∧
    HandleDocumentType ⟨opTy, some (withStatus o .TOPUP)⟩ dt =
      some { status := .LENDING_ORDER_TOPUPED, lendingOrder := some (withStatus o .TOPUP) } ∧
    HandleDocumentType ⟨opTy, some (withStatus o .RECALL)⟩ dt =
      some { status := .LENDING_ORDER_RECALLED, lendingOrder := some (withStatus o .RECALL) } ∧
    HandleDocumentType ⟨opTy, some (withStatus o .REJECTED)⟩ LENDING_EVENT =
      some { status := .LENDING_ORDER_REJECTED, lendingOrder := some (withStatus o .REJECTED) } ∧
    HandleDocumentType ⟨opTy, some (withStatus o .REJECTED)⟩ TOPUP_EVENT =
      some { status := .LENDING_ORDER_TOPUP_REJECTED,
             lendingOrder := some (withStatus o .REJECTED) } ∧
    HandleDocumentType ⟨opTy, some (withStatus o .REJECTED)⟩ REPAY_EVENT =
      some { status := .LENDING_ORDER_REPAY_REJECTED,
             lendingOrder := some (withStatus o .REJECTED) } ∧
    HandleDocumentType ⟨opTy, some (withStatus o .REJECTED)⟩ RECALL_EVENT =
      some { status := .LENDING_ORDER_RECALL_REJECTED,
             lendingOrder := some (withStatus o .REJECTED) } :=
  ⟨rfl, rfl, rfl, rfl, rfl, rfl, rfl, rfl, rfl, rfl, rfl⟩

/-! ### Bulk aggregator lemmas -/

theorem assocUpsert_overwrite (k : Hash) (v1 v2 : LendingOrder)
    (l : List (Hash × LendingOrder)) :
    assocUpsert k v2 (assocUpsert k v1 l) = assocUpsert k v2 l := by
  induction l with
  | nil => simp [assocUpsert]
  | cons p rest ih =>
      obtain ⟨k', v'⟩ := p
      by_cases h : k' = k
      · simp [assocUpsert, h]
      · simp [assocUpsert, h, ih]

theorem bufUpsert_overwrite (id : String) (k : Hash) (v1 v2 : LendingOrder) (buf : Buffer) :
    bufUpsert id k v2 (bufUpsert id k v1 buf) = bufUpsert id k v2 buf := by
  induction buf with
  | nil => simp [bufUpsert, assocUpsert]
  | cons p rest ih =>
      obtain ⟨id', m⟩ := p
      by_cases h : id' = id
      · simp [bufUpsert, h, assocUpsert_overwrite]
      · simp [bufUpsert, h, ih]

theorem foldl_bufUpsert_same_key (t : Nat) (tok : Address) (hsh : Hash) :
    ∀ (os : List LendingOrder) (o : LendingOrder) (buf : Buffer),
      (∀ o' ∈ o :: os, o'.term = t ∧ o'.lendingToken = tok ∧ o'.hash = hsh) →
      ((o :: os).foldl
          (fun b o' => bufUpsert (GetLendingOrderBookChannelID o'.term o'.lendingToken) o'.hash o' b)
          buf)
        = bufUpsert (GetLendingOrderBookChannelID t tok) hsh
            ((o :: os).getLast (List.cons_ne_nil o os)) buf := by
  intro os
  induction os with
  | nil =>
      intro o buf hall
      obtain ⟨h1, h2, h3⟩ := hall o (by simp)
      simp [h1, h2, h3]
  | cons o2 os' ih =>
      intro o buf hall
      obtain ⟨h1, h2, h3⟩ := hall o (by simp)
      have hall2 : ∀ o' ∈ o2 :: os', o'.term = t ∧ o'.lendingToken = tok ∧ o'.hash = hsh :=
        fun o' h' => hall o' (List.mem_cons_of_mem o h')
      rw [List.foldl_cons, ih o2 _ hall2, h1, h2, h3, bufUpsert_overwrite]
      rw [List.getLast_cons (List.cons_ne_nil o2 os')]

theorem runSaves_map_some (stf : LendingOrder → SubscriptionEvent) :
    ∀ (os : List LendingOrder) (buf : Buffer),
      runSaves (os.map fun o => { status := stf o, lendingOrder := some o }) buf =
        .ok (os.foldl
          (fun b o => bufUpsert (GetLendingOrderBookChannelID o.term o.lendingToken) o.hash o b)
          buf) := by
  intro os
  induction os with
  | nil => intro buf; rfl
  | cons o os' ih =>
      intro buf
      simp only [runSaves, List.map_cons, List.foldlM_cons] at ih ⊢
      exact ih _

/-! ### Claim C7 -/

/-- C7: for any N ≥ 1 saves of responses all carrying the same order hash,
term and lending token within one flush window (the buffer starts empty
after the previous flush), the buffer at the next flush holds exactly one
entry for that hash — the order of the last call — and the flush resets
the whole buffer to empty. -/
theorem c7_last_write_wins (stf : LendingOrder → SubscriptionEvent) (os : List LendingOrder)
    (t : Nat) (tok : Address) (hsh : Hash) (hne : os ≠ [])
    (hkeys : ∀ o ∈ os, o.term = t ∧ o.lendingToken = tok ∧ o.hash = hsh) :
    runSaves (os.map fun o => { status := stf o, lendingOrder := some o }) [] =
      .ok [(GetLendingOrderBookChannelID t tok, [(hsh, os.getLast hne)])] ∧
    ∀ (env : Env) (buf : Buffer), (processBulkLendingOrders env buf).2 = [] := by
  constructor
  · rw [runSaves_map_some]
    cases os with
    | nil => exact absurd rfl hne
    | cons o os' =>
        rw [foldl_bufUpsert_same_key t tok hsh os' o [] hkeys]
        rfl
  · intro env buf
    rfl

/-- Witness for C7 at two concrete saves with the same keys. -/
theorem c7_last_write_wins_witness :
    runSaves ([o0, o1].map fun o =>
        { status := SubscriptionEvent.LENDING_ORDER_ADDED, lendingOrder := some o }) [] =
      .ok [(GetLendingOrderBookChannelID 60 5, [(7, o1)])] ∧
    (processBulkLendingOrders env0 [(GetLendingOrderBookChannelID 60 5, [(7, o1)])]).2 = [] := by
  have h := c7_last_write_wins (fun _ => SubscriptionEvent.LENDING_ORDER_ADDED) [o0, o1]
    60 5 7 (by decide) (by decide)
  exact ⟨h.1, h.2 env0 _⟩

/-! ### Claim C5 -/

theorem flushBodyTrace_mem (buf : Buffer) :
    ∀ e ∈ flushBodyTrace buf,
      e = FlushTraceStep.storageLookup ∨ e = FlushTraceStep.registryBroadcast := by
  induction buf with
  | nil => intro e he; simp [flushBodyTrace] at he
  | cons p rest ih =>
      obtain ⟨pp, orders⟩ := p
      intro e he
      simp only [flushBodyTrace, List.mem_append] at he
      rcases he with he | he
      · by_cases hlen : orders.length ≤ 0
        · simp [hlen] at he
        · simp only [hlen, if_false, List.mem_append] at he
          rcases he with he | he
          · left
            obtain ⟨a, _, rfl⟩ := List.mem_map.mp he
            rfl
          · right
            simpa using he
      · exact ih e he

/-- C5 (amended): the periodic flush holds the exclusive lock for its
entire body — the trace is a single lock acquisition, then the per-order
storage lookups, the registry broadcasts and the buffer reset (nothing
else), then the single release — so a concurrent saveBulkLendingOrders is
blocked for the whole flush, including its I/O; there is no
detach-then-process. -/
theorem c5_lock_held_for_entire_flush (buf : Buffer) :
    ∃ mid, processBulkLendingOrdersTrace buf =
        [FlushTraceStep.lockAcquire] ++ mid ++ [FlushTraceStep.lockRelease] ∧
      FlushTraceStep.lockAcquire ∉ mid ∧ FlushTraceStep.lockRelease ∉ mid ∧
      ∀ e ∈ mid, e = FlushTraceStep.storageLookup ∨ e = FlushTraceStep.registryBroadcast ∨
        e = FlushTraceStep.bufferReset := by
  refine ⟨flushBodyTrace buf ++ [FlushTraceStep.bufferReset], ?_, ?_, ?_, ?_⟩
  · simp [processBulkLendingOrdersTrace]
  · intro hmem
    rcases List.mem_append.mp hmem with h | h
    · rcases flushBodyTrace_mem buf _ h with h' | h' <;> simp at h'
    · simp at h
  · intro hmem
    rcases List.mem_append.mp hmem with h | h
    · rcases flushBodyTrace_mem buf _ h with h' | h' <;> simp at h'
    · simp at h
  · intro e he
    rcases List.mem_append.mp he with h | h
    · rcases flushBodyTrace_mem buf e h with h' | h'
      · exact Or.inl h'
      · exact Or.inr (Or.inl h')
    · simp only [List.mem_singleton] at h
      exact Or.inr (Or.inr h)

/-- C5 counterexample: on a buffer with one pending order, the flush trace
performs the storage lookup strictly between the lock acquisition and the
lock release — the lock IS held across the lookup (and the broadcast),
refuting the claim. -/
theorem c5_counterexample :
    ∃ pre post,
      processBulkLendingOrdersTrace [(GetLendingOrderBookChannelID 60 5, [(7, o0)])] =
        pre ++ [FlushTraceStep.storageLookup] ++ post ∧
      FlushTraceStep.lockAcquire ∈ pre ∧ FlushTraceStep.lockRelease ∉ pre ∧
      FlushTraceStep.lockRelease ∈ post :=
  ⟨[FlushTraceStep.lockAcquire],
   [FlushTraceStep.registryBroadcast, FlushTraceStep.bufferReset, FlushTraceStep.lockRelease],
   by decide, by decide, by decide, by decide⟩

/-! ### Claim C9 -/

/-- C9 (amended): when the data payload of a NEW_LENDING_ORDER or
CANCEL_LENDING_ORDER message fails to decode, the failure is logged (by
the sub-handler and again by the switch) and the decode error IS returned
to the caller — contrary to the original claim that no error is surfaced;
a message of any other type is logged and dropped with nil error. -/
theorem c9_decode_failure_returns_error (env : BrokerEnv) (b : Bytes) (e : GoError)
    (hdec : env.unmarshalLendingOrder b = .error e) :
    HandleLendingOrdersCreateCancel env { mtype := "NEW_LENDING_ORDER", data := b } =
      ([.logError e, .logError e], some e) ∧
    HandleLendingOrdersCreateCancel env { mtype := "CANCEL_LENDING_ORDER", data := b } =
      ([.logError e, .logError e], some e) ∧
    ∀ msg : RMessage, msg.mtype ≠ "NEW_LENDING_ORDER" → msg.mtype ≠ "CANCEL_LENDING_ORDER" →
      HandleLendingOrdersCreateCancel env msg = ([.logError "Unknown message"], none) := by
  refine ⟨?_, ?_, ?_⟩
  · simp [HandleLendingOrdersCreateCancel, handleNewLendingOrder, hdec]
  · simp [HandleLendingOrdersCreateCancel, handleCancelLendingOrder, hdec]
  · intro msg h1 h2
    simp [HandleLendingOrdersCreateCancel, h1, h2]

/-- Witness for C9's amended theorem at a concrete failing decoder. -/
theorem c9_decode_failure_returns_error_witness :
    HandleLendingOrdersCreateCancel brokerEnvBad { mtype := "NEW_LENDING_ORDER", data := [0] } =
      ([.logError "invalid character", .logError "invalid character"], some "invalid character") ∧
    HandleLendingOrdersCreateCancel brokerEnvBad { mtype := "PING", data := [] } =
      ([.logError "Unknown message"], none) := by
  have h := c9_decode_failure_returns_error brokerEnvBad [0] "invalid character" rfl
  exact ⟨h.1, h.2.2 { mtype := "PING", data := [] } (by decide) (by decide)⟩

/-- C9 counterexample: a NEW_LENDING_ORDER message whose payload fails to
decode makes HandleLendingOrdersCreateCancel return the decode error to
its caller, refuting "no error surfaced". -/
theorem c9_counterexample :
    (HandleLendingOrdersCreateCancel brokerEnvBad
        { mtype := "NEW_LENDING_ORDER", data := [0] }).2 = some "invalid character" := by
  decide

end TomoDex
